import Mathlib

/-!
# Verification of the BMS battery simulation repository

Shallow embedding, over `ℚ`, of the battery-simulation code:

* `base/core1/models.py` — `BatteryCell.calculate_volume`, `BatteryCell.save`;
* `base/core1/views.py` — `run_battery_simulation` (the closed-form discharge
  model);
* `base/core1/simulator.py` — `BatteryThermalSimulator` (current-profile
  interpolation, the finite-difference temperature update, the snapshot
  payload and the run/pause/resume/stop loop).

Python floats are modelled as rationals (decimal literals are exact);
a Python dict with numeric keys is modelled as its sorted association list;
NULL-able numeric model fields are modelled by their numeric values.
-/

namespace BMS

/-! ## models.py -/

/-- The `form_factor` choices of the `BatteryCell` Django model. -/
inductive FormFactor where
  | cylindrical
  | prismatic
  | pouch
deriving DecidableEq, Repr

/-- The `BatteryCell` model: geometry and electrical constants of a cell
(`base/core1/models.py`). -/
structure BatteryCell where
  form_factor : FormFactor
  length : ℚ
  diameter : ℚ
  height : ℚ
  width : ℚ
  volume : ℚ
  nominal_voltage : ℚ
  capacity : ℚ
  energy_density : ℚ
  internal_resistance : ℚ
  heat_resistance : ℚ
  max_discharge_current : ℚ
  max_charge_current : ℚ
  cycle_life : ℤ
deriving DecidableEq, Repr

/-- The literal pi approximation `3.14159` used by
`BatteryCell.calculate_volume` in `models.py`. -/
def piModels : ℚ := 3.14159

/-- `BatteryCell.calculate_volume` (`models.py` lines 40-47): cylinder volume
from the `3.14159` constant, box volume for prismatic/pouch, divided by 1000
to give cm³ from mm³; `0` on the (unreachable) final fall-through. -/
def calculate_volume (c : BatteryCell) : ℚ :=
  if c.form_factor = FormFactor.cylindrical then
    piModels * (c.diameter / 2) ^ 2 * c.length / 1000
  else if c.form_factor = FormFactor.prismatic ∨ c.form_factor = FormFactor.pouch then
    c.length * c.width * c.height / 1000
  else 0

/-- `BatteryCell.save` (`models.py`): recompute `volume` from the geometry
before persisting (the database write itself is the excluded storage layer). -/
def BatteryCell.save (c : BatteryCell) : BatteryCell :=
  { c with volume := calculate_volume c }

/-! ## views.py — run_battery_simulation -/

/-- The input fields of a `SimulationResult` record
(`load_resistance`, `initial_soc`, `temperature`, `simulation_duration`). -/
structure DischargeParams where
  load_resistance : ℚ
  initial_soc : ℚ
  temperature : ℚ
  simulation_duration : ℕ
deriving DecidableEq, Repr

/-- One `{time: [...], <quantity>: [...]}` JSON payload stored by
`run_battery_simulation`. -/
structure TimeSeries where
  time : List ℚ
  values : List ℚ
deriving DecidableEq, Repr

/-- The six series stored on the `SimulationResult` by
`run_battery_simulation`; `resistance_soc` is the extra raw `soc` list that
the code stores inside `resistance_data`. -/
structure SimulationData where
  emf_data : TimeSeries
  terminal_voltage_data : TimeSeries
  current_data : TimeSeries
  resistance_data : TimeSeries
  resistance_soc : List ℚ
  soc_data : TimeSeries
  temperature_data : TimeSeries
deriving DecidableEq, Repr

/-- Sample `k` of `np.linspace(0, d, num=d*6)`: `k*d/(d*6 - 1)`. -/
def linspace_sample (d : ℕ) (k : ℕ) : ℚ :=
  (k : ℚ) * (d : ℚ) / (((d * 6 : ℕ) : ℚ) - 1)

/-- `np.linspace(0, d, num=d*6)` of `views.py` line 95: `d*6` evenly spaced
samples from `0` to `d` (minutes). -/
def sim_time (d : ℕ) : List ℚ :=
  (List.range (d * 6)).map (linspace_sample d)

/-- SOC as a fraction at time `t` minutes (`views.py` lines 106-111):
`initial_soc/100 - time_hours * c_rate / 5` with `c_rate = 0.2`, clamped
below at `0` by `np.maximum(soc, 0.0)`. -/
def soc_frac (sim : DischargeParams) (t : ℚ) : ℚ :=
  max (sim.initial_soc / 100 - t / 60 * 0.2 / 5) 0

/-- Internal resistance at time `t` (`views.py` line 115):
`base_internal_resistance * (1 + 0.5*(1 - soc))`, base in Ω from mΩ. -/
def internal_resistance_at (cell : BatteryCell) (sim : DischargeParams) (t : ℚ) : ℚ :=
  cell.internal_resistance / 1000 * (1 + 0.5 * (1 - soc_frac sim t))

/-- EMF at time `t` (`views.py` line 118): `nominal_voltage * (0.9 + 0.2*soc)`. -/
def emf_at (cell : BatteryCell) (sim : DischargeParams) (t : ℚ) : ℚ :=
  cell.nominal_voltage * (0.9 + 0.2 * soc_frac sim t)

/-- The fixed C/5 discharge current (`views.py` lines 106-107):
`capacity_ah * 0.2`. -/
def discharge_current (cell : BatteryCell) : ℚ :=
  cell.capacity / 1000 * 0.2

/-- Terminal voltage at time `t` (`views.py` line 121). -/
def terminal_voltage_at (cell : BatteryCell) (sim : DischargeParams) (t : ℚ) : ℚ :=
  emf_at cell sim t - discharge_current cell * internal_resistance_at cell sim t

/-- Load current at time `t` (`views.py` line 124). -/
def current_at (cell : BatteryCell) (sim : DischargeParams) (t : ℚ) : ℚ :=
  terminal_voltage_at cell sim t / (sim.load_resistance + internal_resistance_at cell sim t)

/-- Cell temperature at time `t` (`views.py` lines 128-130):
ambient plus `I² R / heat_resistance`. -/
def temperature_at (cell : BatteryCell) (sim : DischargeParams) (t : ℚ) : ℚ :=
  sim.temperature + current_at cell sim t ^ 2 * internal_resistance_at cell sim t / cell.heat_resistance

/-- `run_battery_simulation` (`views.py` lines 86-162): the closed-form
discharge model, populating the six series over the shared time axis.
The code performs no input validation before computing. -/
def run_battery_simulation (cell : BatteryCell) (sim : DischargeParams) : SimulationData :=
  let t := sim_time sim.simulation_duration
  { emf_data := { time := t, values := t.map (emf_at cell sim) }
    terminal_voltage_data := { time := t, values := t.map (terminal_voltage_at cell sim) }
    current_data := { time := t, values := t.map (current_at cell sim) }
    resistance_data := { time := t, values := t.map (internal_resistance_at cell sim) }
    resistance_soc := t.map (soc_frac sim)
    soc_data := { time := t, values := t.map fun x => soc_frac sim x * 100 }
    temperature_data := { time := t, values := t.map (temperature_at cell sim) } }

/-! ## simulator.py — BatteryThermalSimulator -/

/-- The parameters consumed by `BatteryThermalSimulator.__init__`
(`simulator.py` lines 10-56).  The current profile dict, after the
`float(k)/float(v)` conversion, is modelled as its association list in sorted
key order (dict keys are unique, and `get_current` always sorts them). -/
structure SimParams where
  cell_radius : ℚ
  cell_height : ℚ
  thermal_conductivity : ℚ
  specific_heat_capacity : ℚ
  density : ℚ
  initial_temperature : ℚ
  ambient_temperature : ℚ
  nominal_capacity : ℚ
  nominal_voltage : ℚ
  internal_resistance : ℚ
  time_step : ℚ
  max_simulation_time : ℚ
  current_profile : List (ℚ × ℚ)

/-- The bracketing-pair search of `get_current` (`simulator.py` lines 69-74):
scan consecutive sorted profile entries and linearly interpolate on the first
pair with `times[i] <= t < times[i+1]`; the implicit Python fall-through
(no pair matched) returns `none`. -/
def interp_scan : List (ℚ × ℚ) → ℚ → Option ℚ
  | (t1, c1) :: (t2, c2) :: rest, t =>
    if t1 ≤ t ∧ t < t2 then some (c1 + (c2 - c1) * (t - t1) / (t2 - t1))
    else interp_scan ((t2, c2) :: rest) t
  | _, _ => none

/-- `get_current` (`simulator.py` lines 58-74): clamp below the first and
above the last sorted timestamp, otherwise interpolate between the bracketing
pair.  On an empty profile the Python indexing `times[0]` fails, modelled as
`none`. -/
def get_current (ps : List (ℚ × ℚ)) (t : ℚ) : Option ℚ :=
  match ps with
  | [] => none
  | (t0, c0) :: _ =>
    match ps.getLast? with
    | none => none
    | some (tl, cl) =>
      if t ≤ t0 then some c0
      else if tl ≤ t then some cl
      else interp_scan ps t

/-- The rational value of the double constant `math.pi` used by
`calculate_heat_generation`. -/
def piFloat : ℚ := 3.141592653589793

/-- Fixed radial node count `nr = 10` (`simulator.py` line 42). -/
def nr : ℕ := 10

/-- Fixed axial node count `nz = 20` (`simulator.py` line 43). -/
def nz : ℕ := 20

/-- `mesh_r[i] = i * radius/9` with `radius = cell_radius/1000` metres
(`np.linspace(0, radius, 10)`). -/
def mesh_r (p : SimParams) (i : ℕ) : ℚ :=
  (i : ℚ) * (p.cell_radius / 1000 / 9)

/-- `mesh_z[j] = j * height/19` with `height = cell_height/1000` metres
(`np.linspace(0, height, 20)`). -/
def mesh_z (p : SimParams) (j : ℕ) : ℚ :=
  (j : ℚ) * (p.cell_height / 1000 / 19)

/-- `calculate_heat_generation` (`simulator.py` lines 76-87): Joule heat
`I²R` packed uniformly into the innermost `nr//3 = 3` radial node rows,
divided by the core volume `pi*(radius/3)²*height`; zero elsewhere. -/
def calculate_heat_generation (p : SimParams) (current : ℚ) : ℕ → ℕ → ℚ :=
  fun i _ =>
    if i < 3 then
      current ^ 2 * p.internal_resistance /
        (piFloat * (p.cell_radius / 1000 / 3) ^ 2 * (p.cell_height / 1000))
    else 0

/-- The interior forward-Euler update of `update_temperature`
(`simulator.py` lines 104-122): cylindrical heat equation on nodes
`1 ≤ i ≤ nr-2`, `1 ≤ j ≤ nz-2`; all other entries of the fresh
`np.zeros_like` buffer are `0`. -/
def interior_update (p : SimParams) (q : ℕ → ℕ → ℚ) (Tp : ℕ → ℕ → ℚ) : ℕ → ℕ → ℚ :=
  fun i j =>
    if 1 ≤ i ∧ i ≤ 8 ∧ 1 ≤ j ∧ j ≤ 18 then
      let dr := mesh_r p 1 - mesh_r p 0
      let dz := mesh_z p 1 - mesh_z p 0
      let r := mesh_r p i
      let alpha := p.thermal_conductivity / (p.density * p.specific_heat_capacity)
      let d2T_dr2 := (Tp (i + 1) j - 2 * Tp i j + Tp (i - 1) j) / dr ^ 2
      let dT_dr := (Tp (i + 1) j - Tp (i - 1) j) / (2 * dr)
      let d2T_dz2 := (Tp i (j + 1) - 2 * Tp i j + Tp i (j - 1)) / dz ^ 2
      let dT_dt := alpha * (d2T_dr2 + dT_dr / r + d2T_dz2) +
        q i j / (p.density * p.specific_heat_capacity)
      Tp i j + dT_dt * p.time_step
    else 0

/-- The fixed convective heat transfer coefficient `h = 10.0`
(`simulator.py` line 129). -/
def hConv : ℚ := 10

/-- Boundary assignment `T_new[0,:] = T_new[1,:]` (`simulator.py` line 126):
symmetry at the r=0 axis. -/
def symmetryBC (T : ℕ → ℕ → ℚ) : ℕ → ℕ → ℚ :=
  fun i j => if i = 0 then T 1 j else T i j

/-- Boundary assignment `T_new[-1,:] = T_new[-2,:] - dr*h/k*(T_new[-2,:]-T_amb)`
(`simulator.py` line 130): convective cooling at the outer radius, row
`nr-1 = 9` from row `8`. -/
def outerBC (p : SimParams) (dr : ℚ) (T : ℕ → ℕ → ℚ) : ℕ → ℕ → ℚ :=
  fun i j =>
    if i = 9 then T 8 j - dr * hConv / p.thermal_conductivity * (T 8 j - p.ambient_temperature)
    else T i j

/-- Boundary assignment `T_new[:,0] = T_new[:,1] - dz*h/k*(T_new[:,1]-T_amb)`
(`simulator.py` line 133): convective cooling at the bottom, column `0` from
column `1` of the buffer as already updated by the previous assignments. -/
def bottomBC (p : SimParams) (dz : ℚ) (T : ℕ → ℕ → ℚ) : ℕ → ℕ → ℚ :=
  fun i j =>
    if j = 0 then T i 1 - dz * hConv / p.thermal_conductivity * (T i 1 - p.ambient_temperature)
    else T i j

/-- Boundary assignment `T_new[:,-1] = T_new[:,-2] - dz*h/k*(T_new[:,-2]-T_amb)`
(`simulator.py` line 134): convective cooling at the top, column `nz-1 = 19`
from column `18`. -/
def topBC (p : SimParams) (dz : ℚ) (T : ℕ → ℕ → ℚ) : ℕ → ℕ → ℚ :=
  fun i j =>
    if j = 19 then T i 18 - dz * hConv / p.thermal_conductivity * (T i 18 - p.ambient_temperature)
    else T i j

/-- `update_temperature` (`simulator.py` lines 89-136): interior forward-Euler
update into a fresh buffer, then the four boundary assignments in source
order (symmetry axis, outer surface, bottom, top), each reading the buffer as
left by the previous one. -/
def update_temperature (p : SimParams) (current : ℚ) (T : ℕ → ℕ → ℚ) : ℕ → ℕ → ℚ :=
  let dr := mesh_r p 1 - mesh_r p 0
  let dz := mesh_z p 1 - mesh_z p 0
  let q := calculate_heat_generation p current
  topBC p dz (bottomBC p dz (outerBC p dr (symmetryBC (interior_update p q T))))

/-- The snapshot payload assembled by `get_temperature_data`
(`simulator.py` lines 138-160). -/
structure Snapshot where
  time : ℚ
  current : ℚ
  center_temp : ℚ
  surface_temp : ℚ
  top_temp : ℚ
  bottom_temp : ℚ
  temp_field : List (List ℚ)
  min_temp : ℚ
  max_temp : ℚ

/-- The temperature field as the nested list `self.T.tolist()`. -/
def field_list (T : ℕ → ℕ → ℚ) : List (List ℚ) :=
  (List.range nr).map fun i => (List.range nz).map fun j => T i j

/-- All `nr × nz` field entries, flattened. -/
def field_vals (T : ℕ → ℕ → ℚ) : List ℚ :=
  (field_list T).flatten

/-- `np.min(self.T)`: minimum over all field entries (folded from the entry
`T 0 0`, itself a member, so the fold is the exact minimum). -/
def min_temp_of (T : ℕ → ℕ → ℚ) : ℚ :=
  (field_vals T).foldl min (T 0 0)

/-- `np.max(self.T)`: maximum over all field entries. -/
def max_temp_of (T : ℕ → ℕ → ℚ) : ℚ :=
  (field_vals T).foldl max (T 0 0)

/-- The mutable state of a `BatteryThermalSimulator`, plus the log of
snapshots delivered through the callback so far. -/
structure EngineState where
  T : ℕ → ℕ → ℚ
  current_time : ℚ
  current : ℚ
  running : Bool
  paused : Bool
  snapshots : List Snapshot

/-- `get_temperature_data` (`simulator.py` lines 138-160): probe points
`T[0, nz//2]`, `T[-1, nz//2]`, `T[nr//2, -1]`, `T[nr//2, 0]`, the full field
and its min/max. -/
def get_temperature_data (s : EngineState) : Snapshot :=
  { time := s.current_time
    current := s.current
    center_temp := s.T 0 10
    surface_temp := s.T 9 10
    top_temp := s.T 5 19
    bottom_temp := s.T 5 0
    temp_field := field_list s.T
    min_temp := min_temp_of s.T
    max_temp := max_temp_of s.T }

/-- The numeric value Python assigns from `self.get_current(t)` (always
`some` for the non-empty sorted profiles the engine is run with). -/
def get_current_val (ps : List (ℚ × ℚ)) (t : ℚ) : ℚ :=
  (get_current ps t).getD 0

/-- The state built by `BatteryThermalSimulator.__init__`
(`simulator.py` lines 10-56): uniform `T_init` field, time `0`, current
`get_current(0.0)`, not running, not paused, nothing emitted yet. -/
def init_state (p : SimParams) : EngineState :=
  { T := fun _ _ => p.initial_temperature
    current_time := 0
    current := get_current_val p.current_profile 0
    running := false
    paused := false
    snapshots := [] }

/-- One pass of the `run_simulation` while-loop (`simulator.py` lines
162-185).  If `running` holds and time is below `max_simulation_time`: when
not paused, refresh the current, step the field, advance time by `dt`, and
deliver a snapshot through the callback; when paused, do nothing.  When the
loop guard fails this models the loop exit, which clears `running`. -/
def step_sim (p : SimParams) (s : EngineState) : EngineState :=
  if s.running = true ∧ s.current_time < p.max_simulation_time then
    if s.paused = false then
      let cur := get_current_val p.current_profile s.current_time
      let s' : EngineState :=
        { s with
          current := cur
          T := update_temperature p cur s.T
          current_time := s.current_time + p.time_step }
      { s' with snapshots := s.snapshots ++ [get_temperature_data s'] }
    else s
  else { s with running := false }

/-- `run_simulation` entry (`simulator.py` line 164): `self.running = True`. -/
def start_run (s : EngineState) : EngineState :=
  { s with running := true }

/-- The engine state after `n` loop iterations of a freshly started run. -/
def engine_after (p : SimParams) (n : ℕ) : EngineState :=
  (step_sim p)^[n] (start_run (init_state p))

/-- `pause` (`simulator.py` lines 193-195). -/
def pause (s : EngineState) : EngineState :=
  { s with paused := true }

/-- `resume` (`simulator.py` lines 197-199). -/
def resume (s : EngineState) : EngineState :=
  { s with paused := false }

/-- `stop` (`simulator.py` lines 201-203): clear the `running` flag. -/
def stop (s : EngineState) : EngineState :=
  { s with running := false }

/-! ## Concrete sample inputs -/

/-- The default li-ion-phosphate 18650 cell created by `views.index`
(`views.py` lines 26-41); NULL geometry fields as `0`, `volume` unset. -/
def default_cell : BatteryCell :=
  { form_factor := FormFactor.cylindrical
    length := 65, diameter := 18, height := 0, width := 0, volume := 0
    nominal_voltage := 3.2, capacity := 2500, energy_density := 120
    internal_resistance := 25, heat_resistance := 10
    max_discharge_current := 10, max_charge_current := 5, cycle_life := 2000 }

/-- A run request with a non-positive load resistance. -/
def bad_sim : DischargeParams :=
  { load_resistance := -1, initial_soc := 50, temperature := 25, simulation_duration := 10 }

/-- A well-formed run request. -/
def good_sim : DischargeParams :=
  { load_resistance := 1, initial_soc := 50, temperature := 25, simulation_duration := 1 }

/-- A concrete cylindrical cell with diameter 2 mm and length 1000 mm. -/
def cex_cell : BatteryCell :=
  { form_factor := FormFactor.cylindrical
    length := 1000, diameter := 2, height := 0, width := 0, volume := 0
    nominal_voltage := 3.2, capacity := 2500, energy_density := 120
    internal_resistance := 25, heat_resistance := 10
    max_discharge_current := 10, max_charge_current := 5, cycle_life := 2000 }

/-- A concrete prismatic cell. -/
def prism_cell : BatteryCell :=
  { form_factor := FormFactor.prismatic
    length := 60, diameter := 0, height := 10, width := 30, volume := 0
    nominal_voltage := 3.7, capacity := 2000, energy_density := 100
    internal_resistance := 30, heat_resistance := 12
    max_discharge_current := 8, max_charge_current := 4, cycle_life := 1500 }

/-- Concrete engine parameters with the constant profile `{0: 2.0}`,
`dt = 1 s` and `max_simulation_time = 3600 s`. -/
def engine_params : SimParams :=
  { cell_radius := 18, cell_height := 65, thermal_conductivity := 3
    specific_heat_capacity := 1000, density := 2500
    initial_temperature := 25, ambient_temperature := 25
    nominal_capacity := 2500, nominal_voltage := 3.2, internal_resistance := 0.025
    time_step := 1, max_simulation_time := 3600
    current_profile := [(0, 2)] }

/-- A concrete engine state that is running and not paused. -/
def sample_state : EngineState :=
  { T := fun _ _ => 25, current_time := 0, current := 2
    running := true, paused := false, snapshots := [] }

/-! ## Helper lemmas -/

/-- The linspace time axis has exactly `d * 6` samples. -/
theorem sim_time_length (d : ℕ) : (sim_time d).length = d * 6 := by
  rw [sim_time, List.length_map, List.length_range]

/-- For a positive duration the linspace denominator `d*6 - 1` is positive. -/
theorem linspace_den_pos {d : ℕ} (hd : 1 ≤ d) : (0 : ℚ) < ((d * 6 : ℕ) : ℚ) - 1 := by
  have h6 : (6 : ℕ) ≤ d * 6 := by omega
  have h6q : (6 : ℚ) ≤ ((d * 6 : ℕ) : ℚ) := by exact_mod_cast h6
  linarith

/-- The linspace samples are monotone in the sample index. -/
theorem linspace_sample_mono (d : ℕ) {k k' : ℕ} (h : k ≤ k') :
    linspace_sample d k ≤ linspace_sample d k' := by
  rcases Nat.eq_zero_or_pos d with hd | hd
  · subst hd
    simp [linspace_sample]
  · unfold linspace_sample
    have hden := linspace_den_pos hd
    have hkk : (k : ℚ) ≤ (k' : ℚ) := by exact_mod_cast h
    have hdq : (0 : ℚ) ≤ (d : ℚ) := by positivity
    have hnum : (k : ℚ) * (d : ℚ) ≤ (k' : ℚ) * (d : ℚ) :=
      mul_le_mul_of_nonneg_right hkk hdq
    exact div_le_div_of_nonneg_right hnum (le_of_lt hden)

/-- The linspace samples are non-negative for a positive duration. -/
theorem linspace_sample_nonneg {d : ℕ} (hd : 1 ≤ d) (k : ℕ) :
    0 ≤ linspace_sample d k := by
  unfold linspace_sample
  have hden := linspace_den_pos hd
  positivity

/-- The SOC fraction is antitone in time. -/
theorem soc_frac_antitone (sim : DischargeParams) {t t' : ℚ} (h : t ≤ t') :
    soc_frac sim t' ≤ soc_frac sim t := by
  unfold soc_frac
  refine max_le_max ?_ le_rfl
  have hdecay : t / 60 * 0.2 / 5 ≤ t' / 60 * 0.2 / 5 := by
    have : t * (0.2 / 300) ≤ t' * (0.2 / 300) := by
      refine mul_le_mul_of_nonneg_right h (by norm_num)
    calc t / 60 * 0.2 / 5 = t * (0.2 / 300) := by ring
    _ ≤ t' * (0.2 / 300) := this
    _ = t' / 60 * 0.2 / 5 := by ring
  linarith

/-- The SOC fraction is never negative (clamped at `0`). -/
theorem soc_frac_nonneg (sim : DischargeParams) (t : ℚ) : 0 ≤ soc_frac sim t :=
  le_max_right _ _

/-- For a valid initial SOC and non-negative time, the SOC fraction is at
most `1`. -/
theorem soc_frac_le_one (sim : DischargeParams) {t : ℚ} (ht : 0 ≤ t)
    (h1 : sim.initial_soc ≤ 100) : soc_frac sim t ≤ 1 := by
  unfold soc_frac
  refine max_le ?_ (by norm_num)
  have hdecay : 0 ≤ t / 60 * 0.2 / 5 := by positivity
  linarith

/-- Once the linear decay has crossed zero, the clamp pins the SOC fraction
to exactly `0`. -/
theorem soc_frac_eq_zero (sim : DischargeParams) {t : ℚ}
    (h : sim.initial_soc / 100 - t / 60 * 0.2 / 5 ≤ 0) : soc_frac sim t = 0 :=
  max_eq_right h

/-- Conversely, a zero SOC fraction means the linear decay is at or below
zero. -/
theorem soc_frac_zero_le (sim : DischargeParams) {t : ℚ}
    (h : soc_frac sim t = 0) : sim.initial_soc / 100 - t / 60 * 0.2 / 5 ≤ 0 :=
  max_eq_right_iff.mp h

/-- A min-fold from a seed never exceeds a max-fold from a seed at least as
large over the same list. -/
theorem foldl_min_le_foldl_max :
    ∀ (l : List ℚ) (a b : ℚ), a ≤ b → l.foldl min a ≤ l.foldl max b := by
  intro l
  induction l with
  | nil => intro a b h; simpa using h
  | cons x xs ih =>
    intro a b h
    exact ih _ _ (le_trans (min_le_left a x) (le_trans h (le_max_left b x)))

/-- The field minimum reported by a snapshot never exceeds the field maximum. -/
theorem min_temp_of_le_max_temp_of (T : ℕ → ℕ → ℚ) : min_temp_of T ≤ max_temp_of T :=
  foldl_min_le_foldl_max _ _ _ le_rfl

/-- The four boundary assignments, applied in source order to any interior
buffer, leave rows `0` and `1` identical at every column. -/
theorem bc_rows01 (p : SimParams) (dr dz : ℚ) (S : ℕ → ℕ → ℚ) (j : ℕ) :
    topBC p dz (bottomBC p dz (outerBC p dr (symmetryBC S))) 0 j =
    topBC p dz (bottomBC p dz (outerBC p dr (symmetryBC S))) 1 j := by
  have hs : ∀ x, symmetryBC S 0 x = symmetryBC S 1 x := by
    intro x; simp [symmetryBC]
  have ho : ∀ x, outerBC p dr (symmetryBC S) 0 x = outerBC p dr (symmetryBC S) 1 x := by
    intro x
    simp only [outerBC]
    norm_num
    exact hs x
  have hb : ∀ x, bottomBC p dz (outerBC p dr (symmetryBC S)) 0 x =
      bottomBC p dz (outerBC p dr (symmetryBC S)) 1 x := by
    intro x
    simp only [bottomBC]
    by_cases hx : x = 0
    · rw [if_pos hx, if_pos hx, ho 1]
    · rw [if_neg hx, if_neg hx, ho x]
  simp only [topBC]
  by_cases hj : j = 19
  · rw [if_pos hj, if_pos hj, hb 18]
  · rw [if_neg hj, if_neg hj, hb j]

/-- The bracketing-pair scan succeeds whenever the scanned list starts at or
below `t` and ends strictly above `t`. -/
theorem interp_scan_isSome (t : ℚ) :
    ∀ (l : List (ℚ × ℚ)) (a : ℚ × ℚ), a.1 ≤ t →
      t < ((a :: l).getLast (by simp)).1 → (interp_scan (a :: l) t).isSome = true := by
  intro l
  induction l with
  | nil =>
    intro a ha hlt
    simp only [List.getLast_singleton] at hlt
    exact absurd ha (not_le.mpr hlt)
  | cons b l' ih =>
    intro a ha hlt
    rw [List.getLast_cons_cons] at hlt
    by_cases hb : t < b.1
    · have hsome : interp_scan (a :: b :: l') t =
          some (a.2 + (b.2 - a.2) * (t - a.1) / (b.1 - a.1)) := by
        show (if a.1 ≤ t ∧ t < b.1 then _ else _) = _
        rw [if_pos ⟨ha, hb⟩]
      rw [hsome]; rfl
    · have hstep : interp_scan (a :: b :: l') t = interp_scan (b :: l') t := by
        show (if a.1 ≤ t ∧ t < b.1 then _ else _) = _
        rw [if_neg (fun h => hb h.2)]
      rw [hstep]
      exact ih b (le_of_not_lt hb) hlt

/-- A step taken with the `running` flag cleared changes nothing: the loop
guard fails and the post-loop assignment writes back `running = False`. -/
theorem step_sim_stopped (p : SimParams) (s : EngineState) (h : s.running = false) :
    step_sim p s = s := by
  unfold step_sim
  rw [if_neg]
  · cases s with
    | mk T t c r pz sn => simp only at h; subst h; rfl
  · rintro ⟨h1, _⟩
    rw [h] at h1
    exact Bool.false_ne_true h1

/-- Every snapshot payload reports a field minimum at most its field
maximum. -/
theorem snapshot_minmax (s : EngineState) :
    (get_temperature_data s).min_temp ≤ (get_temperature_data s).max_temp :=
  min_temp_of_le_max_temp_of s.T

/-- Projections of an active step: with the loop guard true and the engine
not paused, one iteration keeps the flags, advances time by `dt`, and appends
exactly one snapshot of the updated state. -/
theorem step_sim_active (p : SimParams) (s : EngineState)
    (hr : s.running = true) (hlt : s.current_time < p.max_simulation_time)
    (hp : s.paused = false) :
    (step_sim p s).running = s.running ∧
    (step_sim p s).paused = s.paused ∧
    (step_sim p s).current_time = s.current_time + p.time_step ∧
    (step_sim p s).snapshots = s.snapshots ++
      [get_temperature_data
        { s with
          current := get_current_val p.current_profile s.current_time
          T := update_temperature p (get_current_val p.current_profile s.current_time) s.T
          current_time := s.current_time + p.time_step }] := by
  unfold step_sim
  rw [if_pos ⟨hr, hlt⟩, if_pos hp]
  exact ⟨rfl, rfl, rfl, rfl⟩

/-- Loop invariant for a freshly started engine with `dt = 1` and
`max_simulation_time ≥ 100`: after `n ≤ 100` iterations it is still running
un-paused at simulated time `n`, having emitted snapshots at times
`1, 2, …, n` in order, each with its field minimum at most its field
maximum. -/
theorem engine_invariant (p : SimParams) (hdt : p.time_step = 1)
    (hmax : (100 : ℚ) ≤ p.max_simulation_time) :
    ∀ n, n ≤ 100 →
      (engine_after p n).running = true ∧
      (engine_after p n).paused = false ∧
      (engine_after p n).current_time = (n : ℚ) ∧
      (engine_after p n).snapshots.map Snapshot.time =
        (List.range n).map (fun (k : ℕ) => ((k : ℚ) + 1)) ∧
      ∀ sn ∈ (engine_after p n).snapshots, sn.min_temp ≤ sn.max_temp := by
  intro n
  induction n with
  | zero =>
    intro _
    refine ⟨rfl, rfl, rfl, rfl, ?_⟩
    intro sn hsn
    exact absurd hsn (List.not_mem_nil sn)
  | succ m ih =>
    intro hm
    obtain ⟨hr, hp, ht, hsnap, hmm⟩ := ih (Nat.le_of_succ_le hm)
    have hlt : (engine_after p m).current_time < p.max_simulation_time := by
      rw [ht]
      have hm' : (m : ℚ) < 100 := by exact_mod_cast Nat.lt_of_succ_le hm
      linarith
    have hstep : engine_after p (m + 1) = step_sim p (engine_after p m) :=
      Function.iterate_succ_apply' _ _ _
    obtain ⟨pr, pp, pt, ps⟩ := step_sim_active p (engine_after p m) hr hlt hp
    refine ⟨?_, ?_, ?_, ?_, ?_⟩
    · rw [hstep, pr, hr]
    · rw [hstep, pp, hp]
    · rw [hstep, pt, ht, hdt]
      push_cast
      ring
    · rw [hstep, ps, List.map_append, hsnap, List.range_succ, List.map_append]
      congr 1
      show [(engine_after p m).current_time + p.time_step] = [(m : ℚ) + 1]
      rw [ht, hdt]
    · rw [hstep, ps]
      intro sn hsn
      rcases List.mem_append.mp hsn with h | h
      · exact hmm sn h
      · have hs := List.mem_singleton.mp h
        subst hs
        exact snapshot_minmax _

/-! ## Claim theorems -/

/-- C1 (counterexample). A run request with non-positive load resistance does
NOT fail before computation: `run_battery_simulation` computes and stores the
complete 60-sample SOC series for a 10-minute request with load resistance
`-1 Ω`, contradicting the claim that such inputs are rejected with
`InvalidParameter` and that no partial results are produced. -/
theorem negative_load_still_produces_results :
    bad_sim.load_resistance ≤ 0 ∧
    (run_battery_simulation default_cell bad_sim).soc_data.values.length = 60 ∧
    (run_battery_simulation default_cell bad_sim).soc_data.values ≠ [] := by
  have hlen : (run_battery_simulation default_cell bad_sim).soc_data.values.length = 60 := by
    simp only [run_battery_simulation, List.length_map, sim_time_length, bad_sim]
  refine ⟨by norm_num [bad_sim], hlen, ?_⟩
  intro hnil
  rw [hnil] at hlen
  simp at hlen

/-- C1 (amended). The code performs no input validation and has no
`InvalidParameter` error path: even when the load resistance is non-positive
or the initial SOC lies outside `[0, 100]`, `run_battery_simulation` computes
and stores all six result series at their full length of
`simulation_duration * 6` samples. -/
theorem no_validation_full_series (cell : BatteryCell) (sim : DischargeParams)
    (hbad : sim.load_resistance ≤ 0 ∨ sim.initial_soc < 0 ∨ 100 < sim.initial_soc) :
    (run_battery_simulation cell sim).emf_data.values.length = sim.simulation_duration * 6 ∧
    (run_battery_simulation cell sim).terminal_voltage_data.values.length = sim.simulation_duration * 6 ∧
    (run_battery_simulation cell sim).current_data.values.length = sim.simulation_duration * 6 ∧
    (run_battery_simulation cell sim).resistance_data.values.length = sim.simulation_duration * 6 ∧
    (run_battery_simulation cell sim).soc_data.values.length = sim.simulation_duration * 6 ∧
    (run_battery_simulation cell sim).temperature_data.values.length = sim.simulation_duration * 6 := by
  refine ⟨?_, ?_, ?_, ?_, ?_, ?_⟩ <;>
    simp only [run_battery_simulation, List.length_map, sim_time_length]

/-- C1 (witness for the amended claim): the invalid request `bad_sim`
(load resistance `-1 Ω`) still yields all six series with `10 * 6 = 60`
samples. -/
theorem no_validation_full_series_witness :
    (run_battery_simulation default_cell bad_sim).emf_data.values.length = bad_sim.simulation_duration * 6 ∧
    (run_battery_simulation default_cell bad_sim).terminal_voltage_data.values.length = bad_sim.simulation_duration * 6 ∧
    (run_battery_simulation default_cell bad_sim).current_data.values.length = bad_sim.simulation_duration * 6 ∧
    (run_battery_simulation default_cell bad_sim).resistance_data.values.length = bad_sim.simulation_duration * 6 ∧
    (run_battery_simulation default_cell bad_sim).soc_data.values.length = bad_sim.simulation_duration * 6 ∧
    (run_battery_simulation default_cell bad_sim).temperature_data.values.length = bad_sim.simulation_duration * 6 :=
  no_validation_full_series default_cell bad_sim (Or.inl (by decide))

/-- C2. After any single invocation of `update_temperature` — any previous
field, any parameters, any driving current, with the fixed `nr = 10`,
`nz = 20` mesh — the r=0 symmetry condition `T[0,j] = T[1,j]` holds exactly
at every axial index `j`, including the corner nodes `j = 0` and `j = 19`
overwritten by the bottom/top boundary assignments applied after the symmetry
assignment. -/
theorem update_temperature_axis_symmetry (p : SimParams) (current : ℚ)
    (T : ℕ → ℕ → ℚ) (j : ℕ) :
    update_temperature p current T 0 j = update_temperature p current T 1 j :=
  bc_rows01 p (mesh_r p 1 - mesh_r p 0) (mesh_z p 1 - mesh_z p 0)
    (interior_update p (calculate_heat_generation p current) T) j

/-- C3. `get_current` interpolates piecewise-linearly over the sorted profile
and clamps outside its range: on the profile `{0: 1.0, 10: 3.0}` it returns
`2.0` at `t = 5`, `1.0` at `t = -1` and `3.0` at `t = 100`; and on every
single-entry profile it returns that entry's current at every time. -/
theorem get_current_interpolation_and_clamping :
    get_current [(0, 1), (10, 3)] 5 = some 2 ∧
    get_current [(0, 1), (10, 3)] (-1) = some 1 ∧
    get_current [(0, 1), (10, 3)] 100 = some 3 ∧
    ∀ (t0 c0 t : ℚ), get_current [(t0, c0)] t = some c0 := by
  refine ⟨?_, ?_, ?_, ?_⟩
  · norm_num [get_current, interp_scan]
  · norm_num [get_current, interp_scan]
  · norm_num [get_current, interp_scan]
  · intro t0 c0 t
    simp only [get_current, List.getLast?]
    split_ifs with h1 h2
    · rfl
    · rfl
    · exact absurd (le_of_not_le h1) h2

/-- C4. For every valid run request (initial SOC in `[0,100]`), the internal
SOC fraction at sample time `t` equals `initial_soc − t_hours·0.2/5` clamped
below at `0`, so the output SOC percentage series is monotonically
non-increasing, bounded in `[0,100]`, reaches exactly `0` once the linear
decay would cross it, and stays at `0` thereafter. -/
theorem soc_series_monotone_bounded_absorbing (cell : BatteryCell) (sim : DischargeParams)
    (h0 : 0 ≤ sim.initial_soc) (h1 : sim.initial_soc ≤ 100) :
    (run_battery_simulation cell sim).soc_data.values =
      (sim_time sim.simulation_duration).map
        (fun t => max (sim.initial_soc / 100 - t / 60 * 0.2 / 5) 0 * 100) ∧
    List.Pairwise (fun a b => b ≤ a) (run_battery_simulation cell sim).soc_data.values ∧
    (∀ x ∈ (run_battery_simulation cell sim).soc_data.values, 0 ≤ x ∧ x ≤ 100) ∧
    (∀ pr ∈ (sim_time sim.simulation_duration).zip
        (run_battery_simulation cell sim).soc_data.values,
      sim.initial_soc / 100 - pr.1 / 60 * 0.2 / 5 ≤ 0 → pr.2 = 0) ∧
    List.Pairwise (fun a b => a = 0 → b = 0)
      (run_battery_simulation cell sim).soc_data.values := by
  have hvals : (run_battery_simulation cell sim).soc_data.values =
      (List.range (sim.simulation_duration * 6)).map
        (fun k => soc_frac sim (linspace_sample sim.simulation_duration k) * 100) := by
    show ((List.range _).map (linspace_sample _)).map _ = _
    rw [List.map_map]
    rfl
  refine ⟨rfl, ?_, ?_, ?_, ?_⟩
  · rw [hvals, List.pairwise_map]
    refine List.Pairwise.imp_of_mem ?_ (List.pairwise_lt_range _)
    intro k k' _ _ hlt
    have hmono := linspace_sample_mono sim.simulation_duration (le_of_lt hlt)
    have hanti := soc_frac_antitone sim hmono
    linarith
  · rw [hvals]
    intro x hx
    obtain ⟨k, hk, rfl⟩ := List.mem_map.mp hx
    have hd : 1 ≤ sim.simulation_duration := by
      have := List.mem_range.mp hk
      omega
    have htn := linspace_sample_nonneg hd k
    refine ⟨?_, ?_⟩
    · have := soc_frac_nonneg sim (linspace_sample sim.simulation_duration k)
      linarith
    · have := soc_frac_le_one sim htn h1
      linarith
  · intro pr hpr hle
    rw [hvals] at hpr
    rw [show sim_time sim.simulation_duration =
        (List.range (sim.simulation_duration * 6)).map
          (linspace_sample sim.simulation_duration) from rfl] at hpr
    rw [List.zip_map'] at hpr
    obtain ⟨k, _, rfl⟩ := List.mem_map.mp hpr
    show soc_frac sim (linspace_sample sim.simulation_duration k) * 100 = 0
    rw [soc_frac_eq_zero sim hle]
    ring
  · rw [hvals, List.pairwise_map]
    refine List.Pairwise.imp_of_mem ?_ (List.pairwise_lt_range _)
    intro k k' _ _ hlt hzero
    have hmono := linspace_sample_mono sim.simulation_duration (le_of_lt hlt)
    have hfk : soc_frac sim (linspace_sample sim.simulation_duration k) = 0 := by
      rcases mul_eq_zero.mp hzero with h | h
      · exact h
      · exact absurd h (by norm_num)
    have he := soc_frac_zero_le sim hfk
    have hdecay : linspace_sample sim.simulation_duration k / 60 * 0.2 / 5 ≤
        linspace_sample sim.simulation_duration k' / 60 * 0.2 / 5 := by
      have hm : linspace_sample sim.simulation_duration k * (0.2 / 300) ≤
          linspace_sample sim.simulation_duration k' * (0.2 / 300) :=
        mul_le_mul_of_nonneg_right hmono (by norm_num)
      calc linspace_sample sim.simulation_duration k / 60 * 0.2 / 5
          = linspace_sample sim.simulation_duration k * (0.2 / 300) := by ring
      _ ≤ linspace_sample sim.simulation_duration k' * (0.2 / 300) := hm
      _ = linspace_sample sim.simulation_duration k' / 60 * 0.2 / 5 := by ring
    have he' : sim.initial_soc / 100 -
        linspace_sample sim.simulation_duration k' / 60 * 0.2 / 5 ≤ 0 := by
      linarith
    rw [soc_frac_eq_zero sim he']
    ring

/-- C4 (witness): the valid request `good_sim` (SOC 50 %, one minute) yields
a non-increasing SOC series in which a zero value is absorbing. -/
theorem soc_series_monotone_bounded_absorbing_witness :
    List.Pairwise (fun a b => b ≤ a)
      (run_battery_simulation default_cell good_sim).soc_data.values ∧
    List.Pairwise (fun a b => a = 0 → b = 0)
      (run_battery_simulation default_cell good_sim).soc_data.values :=
  have h := soc_series_monotone_bounded_absorbing default_cell good_sim
    (by decide) (by decide)
  ⟨h.2.1, h.2.2.2.2⟩

/-- C5. For every valid run request, all six output series have the same
length `simulation_duration * 6` and carry identical time axis values (each
stores the shared linspace axis). -/
theorem six_series_same_length_and_time (cell : BatteryCell) (sim : DischargeParams)
    (hd : 1 ≤ sim.simulation_duration) :
    ((run_battery_simulation cell sim).emf_data.values.length = sim.simulation_duration * 6 ∧
     (run_battery_simulation cell sim).terminal_voltage_data.values.length = sim.simulation_duration * 6 ∧
     (run_battery_simulation cell sim).current_data.values.length = sim.simulation_duration * 6 ∧
     (run_battery_simulation cell sim).resistance_data.values.length = sim.simulation_duration * 6 ∧
     (run_battery_simulation cell sim).soc_data.values.length = sim.simulation_duration * 6 ∧
     (run_battery_simulation cell sim).temperature_data.values.length = sim.simulation_duration * 6) ∧
    ((run_battery_simulation cell sim).emf_data.time = sim_time sim.simulation_duration ∧
     (run_battery_simulation cell sim).terminal_voltage_data.time = sim_time sim.simulation_duration ∧
     (run_battery_simulation cell sim).current_data.time = sim_time sim.simulation_duration ∧
     (run_battery_simulation cell sim).resistance_data.time = sim_time sim.simulation_duration ∧
     (run_battery_simulation cell sim).soc_data.time = sim_time sim.simulation_duration ∧
     (run_battery_simulation cell sim).temperature_data.time = sim_time sim.simulation_duration) := by
  refine ⟨⟨?_, ?_, ?_, ?_, ?_, ?_⟩, rfl, rfl, rfl, rfl, rfl, rfl⟩ <;>
    simp only [run_battery_simulation, List.length_map, sim_time_length]

/-- C5 (witness): the valid one-minute request `good_sim` yields six series of
`1 * 6 = 6` samples over the shared time axis. -/
theorem six_series_same_length_and_time_witness :
    ((run_battery_simulation default_cell good_sim).emf_data.values.length = good_sim.simulation_duration * 6 ∧
     (run_battery_simulation default_cell good_sim).terminal_voltage_data.values.length = good_sim.simulation_duration * 6 ∧
     (run_battery_simulation default_cell good_sim).current_data.values.length = good_sim.simulation_duration * 6 ∧
     (run_battery_simulation default_cell good_sim).resistance_data.values.length = good_sim.simulation_duration * 6 ∧
     (run_battery_simulation default_cell good_sim).soc_data.values.length = good_sim.simulation_duration * 6 ∧
     (run_battery_simulation default_cell good_sim).temperature_data.values.length = good_sim.simulation_duration * 6) ∧
    ((run_battery_simulation default_cell good_sim).emf_data.time = sim_time good_sim.simulation_duration ∧
     (run_battery_simulation default_cell good_sim).terminal_voltage_data.time = sim_time good_sim.simulation_duration ∧
     (run_battery_simulation default_cell good_sim).current_data.time = sim_time good_sim.simulation_duration ∧
     (run_battery_simulation default_cell good_sim).resistance_data.time = sim_time good_sim.simulation_duration ∧
     (run_battery_simulation default_cell good_sim).soc_data.time = sim_time good_sim.simulation_duration ∧
     (run_battery_simulation default_cell good_sim).temperature_data.time = sim_time good_sim.simulation_duration) :=
  six_series_same_length_and_time default_cell good_sim (by decide)

/-- C6. For an engine with the constant profile `{0: 2.0}`, `dt = 1 s` and
`max_simulation_time ≥ 100 s`: after 100 un-paused loop iterations the
simulated time is exactly `100 s`, exactly 100 snapshots have been delivered
through the callback (one per completed step, with strictly increasing time
values), and every snapshot satisfies `max_temp ≥ min_temp`. -/
theorem engine_hundred_steps (p : SimParams)
    (hprof : p.current_profile = [(0, 2)]) (hdt : p.time_step = 1)
    (hmax : (100 : ℚ) ≤ p.max_simulation_time) :
    (∀ sn ∈ (engine_after p 100).snapshots, sn.min_temp ≤ sn.max_temp) ∧
    (engine_after p 100).current_time = 100 ∧
    (engine_after p 100).snapshots.length = 100 ∧
    List.Chain' (fun a b => a < b) ((engine_after p 100).snapshots.map Snapshot.time) := by
  obtain ⟨hr, hp, ht, hsnap, hmm⟩ := engine_invariant p hdt hmax 100 le_rfl
  refine ⟨hmm, by rw [ht]; norm_num, ?_, ?_⟩
  · have hlen := congrArg List.length hsnap
    rwa [List.length_map, List.length_map, List.length_range] at hlen
  · rw [hsnap]
    apply List.Pairwise.chain'
    rw [List.pairwise_map]
    refine List.Pairwise.imp ?_ (List.pairwise_lt_range _)
    intro k k' hkk'
    have hq : (k : ℚ) < (k' : ℚ) := by exact_mod_cast hkk'
    linarith

/-- C6 (witness): the concrete parameters `engine_params` (profile
`{0: 2.0}`, `dt = 1`, `max_simulation_time = 3600`): simulated time 100,
100 snapshots, strictly increasing snapshot times. -/
theorem engine_hundred_steps_witness :
    (engine_after engine_params 100).current_time = 100 ∧
    (engine_after engine_params 100).snapshots.length = 100 ∧
    List.Chain' (fun a b => a < b)
      ((engine_after engine_params 100).snapshots.map Snapshot.time) :=
  (engine_hundred_steps engine_params rfl rfl (by decide)).2

/-- C7. Once `stop` has cleared the `running` flag, the loop guard fails at
the top of every subsequent iteration: after any number of further steps the
engine has emitted no additional snapshot and `running` stays false — a
"never again" property of the step relation. -/
theorem stop_halts_snapshots_forever (p : SimParams) (s : EngineState) (n : ℕ) :
    ((step_sim p)^[n] (stop s)).snapshots = s.snapshots ∧
    ((step_sim p)^[n] (stop s)).running = false := by
  have hfix : (step_sim p)^[n] (stop s) = stop s :=
    Function.iterate_fixed (step_sim_stopped p (stop s) rfl) n
  rw [hfix]
  exact ⟨rfl, rfl⟩

/-- C8 (counterexample). For the cylindrical cell `cex_cell` (diameter 2 mm,
length 1000 mm) the volume computed by the code differs from
`π·(diameter/2)²·length/1000`: the code multiplies by the literal `3.14159`,
which is strictly less than `π`. -/
theorem cylindrical_volume_is_not_pi_formula :
    ((calculate_volume cex_cell : ℚ) : ℝ) ≠
      Real.pi * ((cex_cell.diameter : ℝ) / 2) ^ 2 * (cex_cell.length : ℝ) / 1000 := by
  have h1 : calculate_volume cex_cell = 3.14159 := by
    norm_num [calculate_volume, cex_cell, piModels]
  have h2 : Real.pi * ((cex_cell.diameter : ℝ) / 2) ^ 2 * (cex_cell.length : ℝ) / 1000 =
      Real.pi := by
    norm_num [cex_cell]
  rw [h1, h2]
  have hpi := Real.pi_gt_d6
  intro hc
  rw [← hc] at hpi
  norm_num at hpi

/-- C8 (amended). On every save the stored volume is recomputed from the
geometry before persisting; for cylindrical cells the computed volume is
`3.14159·(diameter/2)²·length/1000` (the code's 6-digit approximation of π,
converting mm³ to cm³), and for prismatic and pouch cells it is
`length·width·height/1000`. -/
theorem volume_recomputed_on_save (c : BatteryCell) :
    (BatteryCell.save c).volume = calculate_volume c ∧
    (c.form_factor = FormFactor.cylindrical →
      calculate_volume c = 3.14159 * (c.diameter / 2) ^ 2 * c.length / 1000) ∧
    ((c.form_factor = FormFactor.prismatic ∨ c.form_factor = FormFactor.pouch) →
      calculate_volume c = c.length * c.width * c.height / 1000) := by
  refine ⟨rfl, ?_, ?_⟩
  · intro h
    simp [calculate_volume, h, piModels]
  · rintro (h | h) <;> simp [calculate_volume, h]

/-- C8 (witness for the amended claim): evaluated on the concrete cylindrical
cell `cex_cell` and the concrete prismatic cell `prism_cell`. -/
theorem volume_recomputed_on_save_witness :
    (BatteryCell.save cex_cell).volume = calculate_volume cex_cell ∧
    calculate_volume cex_cell = 3.14159 * (cex_cell.diameter / 2) ^ 2 * cex_cell.length / 1000 ∧
    calculate_volume prism_cell = prism_cell.length * prism_cell.width * prism_cell.height / 1000 :=
  ⟨(volume_recomputed_on_save cex_cell).1,
   (volume_recomputed_on_save cex_cell).2.1 rfl,
   (volume_recomputed_on_save prism_cell).2.2 (Or.inl rfl)⟩

/-- C9. `pause` and `resume` are idempotent on the engine's control state:
pausing twice leaves exactly the state produced by pausing once, and resuming
an engine that is already running (running flag set, pause flag clear) leaves
the state unchanged. -/
theorem pause_resume_idempotent (s : EngineState) :
    pause (pause s) = pause s ∧
    (s.running = true → s.paused = false → resume s = s) := by
  refine ⟨rfl, ?_⟩
  intro _ hp
  cases s with
  | mk T t c r pz sn => simp only at hp; subst hp; rfl

/-- C9 (witness): evaluated on the concrete running, un-paused state
`sample_state`. -/
theorem pause_resume_idempotent_witness :
    pause (pause sample_state) = pause sample_state ∧ resume sample_state = sample_state :=
  ⟨(pause_resume_idempotent sample_state).1,
   (pause_resume_idempotent sample_state).2 rfl rfl⟩

/-- C10. On every non-empty profile with sorted, distinct timestamps,
`get_current` returns a numeric value at every time: the implicit Python
fall-through of the bracketing loop (which would return `None`) is
unreachable, because whenever `t` lies strictly between the first and last
sorted timestamps some consecutive bracketing pair exists. -/
theorem get_current_total_on_nonempty (ps : List (ℚ × ℚ)) (t : ℚ)
    (hne : ps ≠ []) (hsorted : List.Chain' (fun a b => a.1 < b.1) ps) :
    (get_current ps t).isSome = true := by
  match ps with
  | [] => exact absurd rfl hne
  | (t0, c0) :: rest =>
    have hlast : ((t0, c0) :: rest).getLast? =
        some (((t0, c0) :: rest).getLast (by simp)) := by
      rw [List.getLast?_eq_getLast]
    simp only [get_current, hlast]
    split_ifs with h1 h2
    · rfl
    · rfl
    · exact interp_scan_isSome t rest (t0, c0) (le_of_not_le h1) (lt_of_not_le h2)

/-- C10 (witness): the two-entry profile `{0: 1.0, 10: 3.0}` at `t = 5`. -/
theorem get_current_total_on_nonempty_witness :
    (get_current [(0, 1), (10, 3)] 5).isSome = true :=
  get_current_total_on_nonempty [(0, 1), (10, 3)] 5 (by decide)
    (by norm_num [List.chain'_cons, List.chain'_singleton])

end BMS
